import Mathlib

/-!
Verification development for the orchestration core of the
`embeddenator-agent-mcp` gateway: a shallow embedding of the provider
router (`src/router.rs`), the orchestrator (`src/orchestrator.rs`), the
workflow engine (`src/workflow.rs`) and the relevant tool surface
(`src/tools.rs`), followed by theorems settling the specification claims.

Modelling conventions:
- `HashMap<K, V>` is embedded as `K → Option V` (`entry().or_default()`
  becomes `getD default` followed by a pointwise update).
- `Instant` / `DateTime` timestamps and `Duration` values are embedded as
  `Nat` milliseconds.  `Instant::elapsed` saturates at zero, matching `Nat`
  subtraction.
- `u64` / `u32` counters are embedded as `Nat` (no claim depends on wrap).
- The f64 score is embedded exactly, in integer tenths (see
  `scoreProvider`); the only f64 operation on the scoring path that is not
  exact in binary floating point is the `0.1` usage penalty, and no settled
  claim depends on the numeric value of a score.  The f64 latency EMA in
  `ProviderHealth::record_success` is approximated by exact rational
  truncation; the single claim about its value is therefore left unsettled
  rather than proved against this approximation.
- The external `embeddenator_webpuppet` adapter (session acquisition,
  authentication, prompting) is a parameter (`Adapter`) of the orchestrator
  operations; the orchestration code never inspects it beyond its results.
-/

/-- Modelled from the spec: the closed provider enumeration of the external
`embeddenator_webpuppet` crate (§3 of the spec), in the spec's order. -/
inductive Provider where
  | claude
  | grok
  | gemini
  | chatGpt
  | perplexity
  | notebookLm
deriving DecidableEq, Repr

/-- Modelled from the spec: `Provider::all()` enumerates the closed set of
providers (order as declared in §3). -/
def Provider.all : List Provider :=
  [.claude, .grok, .gemini, .chatGpt, .perplexity, .notebookLm]

/-- Modelled from the spec: the `Display` rendering of a provider used by
`to_string()` in the source. -/
def Provider.displayName : Provider → String
  | .claude => "Claude"
  | .grok => "Grok"
  | .gemini => "Gemini"
  | .chatGpt => "ChatGpt"
  | .perplexity => "Perplexity"
  | .notebookLm => "NotebookLm"

/-- `provider.to_string().to_lowercase()` as used for preference lookups. -/
def Provider.lowerName : Provider → String
  | .claude => "claude"
  | .grok => "grok"
  | .gemini => "gemini"
  | .chatGpt => "chatgpt"
  | .perplexity => "perplexity"
  | .notebookLm => "notebooklm"

/-- Modelled from the spec: the two static capability sets of the external
crate (search-capable and large-context providers, §3).  Their membership is
data of the adapter crate, absent from `src/`; every theorem that touches
scoring is parametric in them. -/
structure ProviderCaps where
  searchProviders : List Provider
  largeContextProviders : List Provider
deriving Repr

/-- A concrete instantiation of the capability sets, used only to evaluate
closed examples (no settled claim depends on the membership chosen here). -/
def defaultCaps : ProviderCaps :=
  { searchProviders := [.perplexity, .chatGpt, .grok]
    largeContextProviders := [.gemini, .notebookLm, .claude] }

/-- `TaskType` from `src/router.rs`. -/
inductive TaskType where
  | general
  | search
  | largeContext
  | code
  | creative
deriving DecidableEq, Repr

/-- `Error` from `src/error.rs` (payloads of foreign error types are
embedded as their rendered message strings). -/
inductive Error where
  | noProviders (msg : String)
  | provider (msg : String)
  | workflow (msg : String)
  | invalidState (msg : String)
  | config (msg : String)
  | serialization (msg : String)
  | ioErr (msg : String)
  | permissionDenied (msg : String)
  | rateLimited (msg : String)
  | timeout (msg : String)
  | invalidParams (msg : String)
  | protocol (msg : String)
  | internal (msg : String)
deriving DecidableEq, Repr

/-- `PromptResponse` of the external webpuppet crate: the fields the
orchestrator reads (`provider`, `text`). -/
structure PromptResponse where
  provider : Provider
  text : String
deriving DecidableEq, Repr

/-- The external adapter (`WebPuppet`) as seen by the orchestrator:
whether a session can be acquired, per-provider authentication outcome,
the per-provider prompt outcome, and the elapsed time observed by the
orchestrator's timer. -/
structure Adapter where
  acquireOk : Bool
  authOk : Provider → Bool
  promptResult : Provider → String → Except String PromptResponse
  elapsedMs : Nat

/-- `str::to_lowercase` as used on provider-name strings, embedded as the
ASCII case fold (every provider key in the source is ASCII; `String.map`
itself is not kernel-reducible, a list fold is). -/
def lowerAscii (s : String) : String := String.mk (s.data.map Char.toLower)

instance {ε α : Type} [DecidableEq ε] [DecidableEq α] :
    DecidableEq (Except ε α) := fun x y =>
  match x, y with
  | .ok a, .ok b =>
    if h : a = b then isTrue (by rw [h])
    else isFalse (fun hh => h (Except.ok.inj hh))
  | .error a, .error b =>
    if h : a = b then isTrue (by rw [h])
    else isFalse (fun hh => h (Except.error.inj hh))
  | .ok _, .error _ => isFalse (fun hh => Except.noConfusion hh)
  | .error _, .ok _ => isFalse (fun hh => Except.noConfusion hh)

/-- `ProviderHealth` from `src/router.rs` (timestamps in ms). -/
structure ProviderHealth where
  last_success : Option Nat := none
  last_failure : Option Nat := none
  consecutive_failures : Nat := 0
  avg_latency : Option Nat := none
deriving DecidableEq, Repr

instance : Inhabited ProviderHealth := ⟨{}⟩

/-- `ProviderHealth::is_healthy` (`now` is the current instant in ms;
`Duration::from_secs(300)` is 300000 ms; `elapsed` saturates at zero just
like `Nat` subtraction). -/
def ProviderHealth.isHealthy (h : ProviderHealth) (now : Nat) : Bool :=
  if h.consecutive_failures ≥ 3 then
    match h.last_failure with
    | some lastFail => if now - lastFail < 300000 then false else true
    | none => true
  else true

/-- The f64 EMA `avg * 0.9 + latency * 0.1` truncated to integer ms,
approximated by exact rational truncation (see the header note). -/
def emaApprox (avg sample : Nat) : Nat :=
  (9 * avg + sample) / 10

/-- `ProviderHealth::record_success`. -/
def ProviderHealth.recordSuccess (h : ProviderHealth) (latencyMs now : Nat) :
    ProviderHealth :=
  { h with
    last_success := some now
    consecutive_failures := 0
    avg_latency := some (match h.avg_latency with
      | some avg => emaApprox avg latencyMs
      | none => latencyMs) }

/-- `ProviderHealth::record_failure`. -/
def ProviderHealth.recordFailure (h : ProviderHealth) (now : Nat) :
    ProviderHealth :=
  { h with
    last_failure := some now
    consecutive_failures := h.consecutive_failures + 1 }

/-- `ProviderStats` from `src/router.rs`. -/
structure ProviderStats where
  total_requests : Nat := 0
  successful_requests : Nat := 0
  failed_requests : Nat := 0
  total_tokens : Option Nat := none
deriving DecidableEq, Repr

instance : Inhabited ProviderStats := ⟨{}⟩

/-- `ProviderPreferences` from `src/router.rs` (`serde_json::Value`
settings embedded as rendered strings; they are never read). -/
structure ProviderPreferences where
  priorities : List (String × Nat)
  disabled : List String
  settings : List (String × String)
deriving DecidableEq, Repr

/-- `ProviderPreferences::priority`. -/
def ProviderPreferences.priority (prefs : ProviderPreferences)
    (p : Provider) : Nat :=
  match prefs.priorities.lookup p.lowerName with
  | some v => v
  | none => 50

/-- `ProviderPreferences::is_disabled`. -/
def ProviderPreferences.isDisabled (prefs : ProviderPreferences)
    (p : Provider) : Bool :=
  prefs.disabled.any (fun s => lowerAscii s == p.lowerName)

/-- `ProviderPreferences::default`. -/
def ProviderPreferences.default : ProviderPreferences :=
  { priorities :=
      [("claude", 100), ("chatgpt", 90), ("gemini", 80),
       ("grok", 70), ("perplexity", 60), ("notebooklm", 50)]
    disabled := []
    settings := [] }

/-- `ProviderRouter` from `src/router.rs` (the two hash maps as
`Provider → Option _`). -/
structure RouterState where
  preferences : ProviderPreferences
  health : Provider → Option ProviderHealth
  stats : Provider → Option ProviderStats

/-- `ProviderRouter::with_preferences`. -/
def RouterState.withPreferences (prefs : ProviderPreferences) : RouterState :=
  { preferences := prefs, health := fun _ => none, stats := fun _ => none }

/-- `ProviderRouter::new`. -/
def RouterState.new : RouterState :=
  RouterState.withPreferences ProviderPreferences.default

/-- `ProviderRouter::is_healthy`. -/
def RouterState.isHealthy (r : RouterState) (p : Provider) (now : Nat) :
    Bool :=
  match r.health p with
  | some h => h.isHealthy now
  | none => true

/-- `ProviderRouter::available_providers`. -/
def RouterState.availableProviders (r : RouterState) (now : Nat) :
    List Provider :=
  Provider.all.filter (fun p => r.isHealthy p now)

/-- `ProviderRouter::score_provider`.  The f64 score is embedded in exact
tenths as `ℤ`: every term of the score grammar is a multiple of 0.1 (the
priority, task bonus, failure penalty and latency penalty are integers,
the usage penalty is `(total mod 100) * 0.1`), so each term below is the
source term multiplied by 10 and score comparisons agree with the exact
rational ones. -/
def RouterState.scoreProvider (caps : ProviderCaps) (r : RouterState)
    (p : Provider) (t : TaskType) : ℤ :=
  let base : ℤ := (r.preferences.priority p : ℤ) * 10
  let bonus : ℤ :=
    match t with
    | .search => if caps.searchProviders.contains p then 500 else 0
    | .largeContext => if caps.largeContextProviders.contains p then 300 else 0
    | .code => if p = .claude ∨ p = .chatGpt then 200 else 0
    | .creative => if p = .gemini ∨ p = .claude then 150 else 0
    | .general => 0
  let healthPenalty : ℤ :=
    match r.health p with
    | some h =>
        (if h.consecutive_failures > 0 then
          ((h.consecutive_failures * 10 : Nat) : ℤ) * 10 else 0)
        + (match h.avg_latency with
           | some latency => ((latency / 1000 : Nat) : ℤ) * 10
           | none => 0)
    | none => 0
  let usagePenalty : ℤ :=
    match r.stats p with
    | some s => ((s.total_requests % 100 : Nat) : ℤ)
    | none => 0
  base + bonus - healthPenalty - usagePenalty

/-- One iteration of the selection loop of `ProviderRouter::select_best`:
keep the incumbent unless the new provider scores strictly higher. -/
def selStep (caps : ProviderCaps) (r : RouterState) (t : TaskType)
    (best : Option (Provider × ℤ)) (p : Provider) : Option (Provider × ℤ) :=
  let score := r.scoreProvider caps p t
  match best with
  | none => some (p, score)
  | some (q, s) => if score > s then some (p, score) else some (q, s)

/-- The selection loop of `ProviderRouter::select_best`. -/
def selBestFold (caps : ProviderCaps) (r : RouterState) (t : TaskType)
    (l : List Provider) : Option (Provider × ℤ) :=
  l.foldl (selStep caps r t) none

/-- `ProviderRouter::select_best`. -/
def RouterState.selectBest (caps : ProviderCaps) (r : RouterState)
    (now : Nat) (t : TaskType) : Except Error Provider :=
  let available := r.availableProviders now
  if available.isEmpty then
    .error (.noProviders "no healthy providers available")
  else
    match selBestFold caps r t available with
    | some (p, _) => .ok p
    | none => .error (.noProviders "no suitable provider found")

/-- Stable insertion into a descending-sorted list: an element is placed
after every earlier element whose score is `≥` its own, which reproduces the
stable `sort_by(|(_, a), (_, b)| b.partial_cmp(a))` of the source. -/
def insertDescBy (score : α → ℤ) (x : α) : List α → List α
  | [] => [x]
  | y :: ys =>
      if score y ≥ score x then y :: insertDescBy score x ys
      else x :: y :: ys

/-- Stable descending sort (insertion sort), the unique stable sort for the
total comparator used by `select_multiple`. -/
def sortDescBy (score : α → ℤ) : List α → List α
  | [] => []
  | x :: xs => insertDescBy score x (sortDescBy score xs)

/-- `ProviderRouter::select_multiple`. -/
def RouterState.selectMultiple (caps : ProviderCaps) (r : RouterState)
    (now : Nat) (count : Nat) (t : TaskType) : Except Error (List Provider) :=
  let available := r.availableProviders now
  if available.length < count then
    .error (.noProviders "need more providers than available")
  else
    let scored := available.map (fun p => (p, r.scoreProvider caps p t))
    let sorted := sortDescBy (fun pq => pq.2) scored
    .ok ((sorted.take count).map (fun pq => pq.1))

/-- `ProviderRouter::record_success`. -/
def RouterState.recordSuccess (r : RouterState) (p : Provider)
    (latencyMs now : Nat) : RouterState :=
  { r with
    health := fun q =>
      if q = p then some (((r.health p).getD default).recordSuccess latencyMs now)
      else r.health q
    stats := fun q =>
      if q = p then
        let s := (r.stats p).getD default
        some { s with
          total_requests := s.total_requests + 1
          successful_requests := s.successful_requests + 1 }
      else r.stats q }

/-- `ProviderRouter::record_failure`. -/
def RouterState.recordFailure (r : RouterState) (p : Provider) (now : Nat) :
    RouterState :=
  { r with
    health := fun q =>
      if q = p then some (((r.health p).getD default).recordFailure now)
      else r.health q
    stats := fun q =>
      if q = p then
        let s := (r.stats p).getD default
        some { s with
          total_requests := s.total_requests + 1
          failed_requests := s.failed_requests + 1 }
      else r.stats q }

/-- The statistics record the spec reads as `stats(p)` (a provider the
router has never touched reads as the zeroed default, matching
`HashMap::entry(..).or_default()`). -/
def RouterState.statsOf (r : RouterState) (p : Provider) : ProviderStats :=
  (r.stats p).getD default

/-- One event of the router feedback interface. -/
inductive RouterEvent where
  | success (p : Provider) (latencyMs : Nat) (now : Nat)
  | failure (p : Provider) (now : Nat)

/-- Apply a finite sequence of `record_success` / `record_failure` calls. -/
def RouterState.applyEvents (r : RouterState) : List RouterEvent → RouterState
  | [] => r
  | .success p latency now :: es => (r.recordSuccess p latency now).applyEvents es
  | .failure p now :: es => (r.recordFailure p now).applyEvents es

/-- `WorkflowState` from `src/workflow.rs`. -/
inductive WorkflowState where
  | pending
  | running
  | paused
  | completed
  | failed (reason : String)
deriving DecidableEq, Repr

/-- `StepState` from `src/workflow.rs`. -/
inductive StepState where
  | pending
  | running
  | waitingForHuman
  | completed
  | failed (reason : String)
deriving DecidableEq, Repr

/-- `StepType` from `src/workflow.rs`. -/
inductive StepType where
  | prompt
  | parallelPrompt
  | consensus
  | humanReview
  | conditional
  | tool
deriving DecidableEq, Repr

/-- `StepConfig` from `src/workflow.rs` (`serde_json::Value` arguments of
the reserved `Tool` variant embedded as rendered strings). -/
inductive StepConfig where
  | prompt (message : String) (provider : Option String) (context : Option String)
  | parallelPrompt (message : String) (providers : List String)
  | consensus (message : String) (minProviders : Nat)
  | humanReview (reviewPrompt : String)
  | conditional (condition : String) (thenStep : String) (elseStep : Option String)
  | tool (toolName : String) (arguments : String)
deriving DecidableEq, Repr

/-- `ProviderResponse` from `src/workflow.rs`. -/
structure ProviderResponse where
  provider : String
  text : String
  selected : Bool
  confidence : Option ℚ
deriving DecidableEq, Repr

/-- `StepResult` from `src/workflow.rs` (metadata values are only ever the
JSON number written for `agreement_score`, embedded as `ℚ`). -/
structure StepResult where
  output : String
  provider : Option String
  responses : Option (List ProviderResponse)
  duration_ms : Nat
  metadata : List (String × ℚ)
deriving DecidableEq, Repr

/-- `WorkflowStep` from `src/workflow.rs`. -/
structure WorkflowStep where
  id : String
  name : String
  step_type : StepType
  state : StepState
  config : StepConfig
  result : Option StepResult
deriving DecidableEq, Repr

/-- `WorkflowStep::prompt` (`Uuid::new_v4` modelled as the supplied fresh
string). -/
def WorkflowStep.prompt (fresh name message : String) : WorkflowStep :=
  { id := fresh, name := name, step_type := .prompt, state := .pending
    config := .prompt message none none, result := none }

/-- `WorkflowStep::parallel`. -/
def WorkflowStep.parallel (fresh name message : String)
    (providers : List String) : WorkflowStep :=
  { id := fresh, name := name, step_type := .parallelPrompt, state := .pending
    config := .parallelPrompt message providers, result := none }

/-- `WorkflowStep::consensus`. -/
def WorkflowStep.consensus (fresh name message : String) : WorkflowStep :=
  { id := fresh, name := name, step_type := .consensus, state := .pending
    config := .consensus message 2, result := none }

/-- `WorkflowStep::review`. -/
def WorkflowStep.review (fresh name reviewPrompt : String) : WorkflowStep :=
  { id := fresh, name := name, step_type := .humanReview, state := .pending
    config := .humanReview reviewPrompt, result := none }

/-- `Workflow` from `src/workflow.rs` (JSON context values and metadata
embedded as rendered strings; timestamps as `Nat`). -/
structure Workflow where
  id : String
  name : String
  state : WorkflowState
  steps : List WorkflowStep
  current_step : Nat
  context : List (String × String)
  created_at : Nat
  updated_at : Nat
  metadata : List (String × String)
deriving DecidableEq, Repr

/-- `Workflow::new` (`Uuid::new_v4` as the supplied fresh string,
`Utc::now()` as the supplied instant). -/
def Workflow.new (fresh : String) (now : Nat) (name : String) : Workflow :=
  { id := fresh, name := name, state := .pending, steps := []
    current_step := 0, context := [], created_at := now, updated_at := now
    metadata := [] }

/-- `Workflow::add_step`. -/
def Workflow.addStep (wf : Workflow) (step : WorkflowStep) (now : Nat) :
    Workflow :=
  { wf with steps := wf.steps ++ [step], updated_at := now }

/-- `Workflow::is_complete`. -/
def Workflow.isComplete (wf : Workflow) : Bool :=
  match wf.state with
  | .completed => true
  | .failed _ => true
  | _ => false

/-- `Workflow::advance`. -/
def Workflow.advance (wf : Workflow) (now : Nat) : Except Error Workflow :=
  if wf.current_step ≥ wf.steps.length then
    .error (.invalidState "workflow already complete")
  else
    let wf1 := { wf with
      current_step := wf.current_step + 1, updated_at := now }
    if wf1.current_step ≥ wf1.steps.length then
      .ok { wf1 with state := .completed }
    else
      .ok wf1

/-- The state of the step at index `i`, when it exists. -/
def Workflow.stepStateAt (wf : Workflow) (i : Nat) : Option StepState :=
  (wf.steps.get? i).map (fun s => s.state)

/-- `AgentOrchestrator::prompt_provider`: acquire a session, authenticate,
prompt, and record the outcome in the router.  Acquisition and
authentication errors propagate before anything is recorded. -/
def promptProvider (env : Adapter) (r : RouterState) (now : Nat)
    (p : Provider) (message : String) :
    RouterState × Except Error PromptResponse :=
  if env.acquireOk = false then
    (r, .error (.provider "failed to acquire adapter session"))
  else if env.authOk p = false then
    (r, .error (.provider "authentication failed"))
  else
    match env.promptResult p message with
    | .ok resp => (r.recordSuccess p env.elapsedMs now, .ok resp)
    | .error e => (r.recordFailure p now, .error (.provider e))

/-- `AgentOrchestrator::prompt`: `select_best(General)` then
`prompt_provider`. -/
def orchPrompt (caps : ProviderCaps) (env : Adapter) (r : RouterState)
    (now : Nat) (message : String) :
    RouterState × Except Error PromptResponse :=
  match r.selectBest caps now .general with
  | .error e => (r, .error e)
  | .ok p => promptProvider env r now p message

/-- `AgentOrchestrator::parallel_prompt`: one session for the batch; per
provider, an authentication failure or prompt failure is pushed as that
provider's error and the batch continues. -/
def parallelPrompt (env : Adapter) (message : String)
    (providers : List Provider) :
    Except Error (List (Provider × Except Error PromptResponse)) :=
  if env.acquireOk = false then
    .error (.provider "failed to acquire adapter session")
  else
    .ok (providers.map (fun p =>
      if env.authOk p = false then (p, .error (.provider "authentication failed"))
      else match env.promptResult p message with
        | .ok resp => (p, .ok resp)
        | .error e => (p, .error (.provider e))))

/-- `parallel_prompt` viewed at the orchestrator state level: the method
holds `&self` (and hence the router) but performs no router writes, so the
router component passes through untouched. -/
def orchParallelPrompt (env : Adapter) (r : RouterState) (message : String)
    (providers : List Provider) :
    RouterState × Except Error (List (Provider × Except Error PromptResponse)) :=
  (r, parallelPrompt env message providers)

/-- One iteration of `Iterator::max_by_key`: a later element replaces the
incumbent when its key is greater or equal (so ties resolve to the last
maximal element, as documented for the Rust iterator adapter). -/
def maxStep (key : α → Nat) (acc : Option α) (x : α) : Option α :=
  match acc with
  | none => some x
  | some y => if key y ≤ key x then some x else some y

/-- `Iterator::max_by_key`: the maximum under `key`, ties resolved to the
last maximal element. -/
def maxByKeyLast (key : α → Nat) (l : List α) : Option α :=
  l.foldl (maxStep key) none

/-- The `best` binding of `AgentOrchestrator::find_consensus`
(`max_by_key(|(_, r)| r.text.len())`, byte length). -/
def consensusWinner (responses : List (Provider × PromptResponse)) :
    Option (Provider × PromptResponse) :=
  maxByKeyLast (fun pr => pr.2.text.utf8ByteSize) responses

/-- `ConsensusResult` from `src/orchestrator.rs`. -/
structure ConsensusResult where
  consensus_text : String
  responses : List ProviderResponse
  agreement_score : ℚ
deriving DecidableEq, Repr

/-- `AgentOrchestrator::find_consensus`. -/
def findConsensus (responses : List (Provider × PromptResponse)) :
    ConsensusResult :=
  let best := consensusWinner responses
  let providerResponses := responses.map (fun pr =>
    { provider := pr.1.displayName
      text := pr.2.text
      selected := match best with
        | some b => b.1 = pr.1
        | none => false
      confidence := none : ProviderResponse })
  { consensus_text := match best with
      | some b => b.2.text
      | none => ""
    responses := providerResponses
    agreement_score := 1 / 2 }

/-- The success-collection step of `consensus_prompt`:
`filter_map(|(p, r)| r.ok().map(|resp| (p, resp)))`. -/
def successResponses (results : List (Provider × Except Error PromptResponse)) :
    List (Provider × PromptResponse) :=
  results.filterMap (fun pr =>
    match pr.2 with
    | .ok resp => some (pr.1, resp)
    | .error _ => none)

/-- `AgentOrchestrator::consensus_prompt`. -/
def consensusPrompt (caps : ProviderCaps) (env : Adapter) (r : RouterState)
    (now : Nat) (message : String) (minProviders : Nat) :
    Except Error ConsensusResult :=
  match r.selectMultiple caps now (max minProviders 3) .general with
  | .error e => .error e
  | .ok providers =>
    match parallelPrompt env message providers with
    | .error e => .error e
    | .ok results =>
      let responses := successResponses results
      if responses.length < minProviders then
        .error (.noProviders
          ("only " ++ toString responses.length ++
           " providers responded, need " ++ toString minProviders))
      else
        .ok (findConsensus responses)

/-- The inline provider-string mapping of `execute_workflow_step`
(case-insensitive, no aliases). -/
def parseProviderStep (s : String) : Option Provider :=
  match lowerAscii s with
  | "claude" => some .claude
  | "grok" => some .grok
  | "gemini" => some .gemini
  | "chatgpt" => some .chatGpt
  | "perplexity" => some .perplexity
  | "notebooklm" => some .notebookLm
  | _ => none

/-- The tail of `execute_workflow_step` on a successful dispatch: mark the
step `Completed` with its result, then `advance()`. -/
def finishStep (r : RouterState) (wf1 : Workflow) (idx : Nat)
    (step : WorkflowStep) (result : StepResult) (now : Nat) :
    RouterState × Workflow × Except Error StepResult :=
  let wf2 := { wf1 with
    steps := wf1.steps.set idx
      { step with state := .completed, result := some result } }
  match wf2.advance now with
  | .ok wf3 => (r, wf3, .ok result)
  | .error e => (r, wf2, .error e)

/-- The per-config dispatch of `AgentOrchestrator::execute_workflow_step`
(step 3 of the body): `wf1` is the workflow with the current step already
marked `Running` and the workflow state set to `Running`, `idx` the current
step index, `step` the snapshot of the current step. -/
def runStepConfig (caps : ProviderCaps) (env : Adapter) (now : Nat)
    (r : RouterState) (wf1 : Workflow) (idx : Nat) (step : WorkflowStep) :
    RouterState × Workflow × Except Error StepResult :=
  match step.config with
  | .prompt message provider _context =>
    let outcome :=
      match provider.bind parseProviderStep with
      | some p => promptProvider env r now p message
      | none => orchPrompt caps env r now message
    match outcome with
    | (r1, .error e) => (r1, wf1, .error e)
    | (r1, .ok resp) =>
      finishStep r1 wf1 idx step
        { output := resp.text
          provider := some resp.provider.displayName
          responses := none
          duration_ms := env.elapsedMs
          metadata := [] } now
  | .parallelPrompt message providerStrs =>
    let providers := providerStrs.filterMap parseProviderStep
    match parallelPrompt env message providers with
    | .error e => (r, wf1, .error e)
    | .ok results =>
      let responses := results.filterMap (fun pr =>
        match pr.2 with
        | .ok resp => some
            { provider := pr.1.displayName
              text := resp.text
              selected := false
              confidence := none : ProviderResponse }
        | .error _ => none)
      let output := String.intercalate "\n\n---\n\n"
        (responses.map (fun resp =>
          "**" ++ resp.provider ++ "**:\n" ++ resp.text))
      finishStep r wf1 idx step
        { output := output
          provider := none
          responses := some responses
          duration_ms := env.elapsedMs
          metadata := [] } now
  | .consensus message minProviders =>
    match consensusPrompt caps env r now message minProviders with
    | .error e => (r, wf1, .error e)
    | .ok consensus =>
      finishStep r wf1 idx step
        { output := consensus.consensus_text
          provider := none
          responses := some consensus.responses
          duration_ms := env.elapsedMs
          metadata := [("agreement_score", consensus.agreement_score)] } now
  | .humanReview _ =>
    let wf2 := { wf1 with
      state := .paused
      steps := wf1.steps.set idx { step with state := .waitingForHuman } }
    (r, wf2, .error (.workflow "waiting for human review"))
  | .conditional _ _ _ => (r, wf1, .error (.workflow "unsupported step type"))
  | .tool _ _ => (r, wf1, .error (.workflow "unsupported step type"))

/-- Step 2 of `execute_workflow_step`: the workflow after
`current_mut().start()` and `workflow.state = Running`. -/
def runningWorkflow (wf : Workflow) (step : WorkflowStep) : Workflow :=
  { wf with
    state := .running
    steps := wf.steps.set wf.current_step { step with state := .running } }

/-- `AgentOrchestrator::execute_workflow_step`, applied to the workflow
looked up by id in the store (absence of the id is handled by the caller
and is not part of any claim): guard completion, snapshot the current step,
mark it `Running` and the workflow `Running`, then dispatch on its config. -/
def executeWorkflowStep (caps : ProviderCaps) (env : Adapter) (now : Nat)
    (r : RouterState) (wf : Workflow) :
    RouterState × Workflow × Except Error StepResult :=
  if wf.isComplete then
    (r, wf, .error (.invalidState "workflow already complete"))
  else
    match wf.steps.get? wf.current_step with
    | none => (r, wf, .error (.invalidState "no current step"))
    | some step =>
      runStepConfig caps env now r (runningWorkflow wf step)
        wf.current_step step


/-- The step definition accepted by the `agent_workflow_start` tool
(`src/tools.rs`, `WorkflowStepDef`). -/
structure WorkflowStepDef where
  name : String
  stepType : String
  message : String
  provider : Option String
  providers : Option (List String)
deriving DecidableEq, Repr

/-- The step-building match of `WorkflowStartTool::execute`. -/
def buildStep (fresh : String) (d : WorkflowStepDef) :
    Except Error WorkflowStep :=
  match d.stepType with
  | "prompt" => .ok (WorkflowStep.prompt fresh d.name d.message)
  | "parallel" => .ok (WorkflowStep.parallel fresh d.name d.message
      (d.providers.getD []))
  | "consensus" => .ok (WorkflowStep.consensus fresh d.name d.message)
  | "review" => .ok (WorkflowStep.review fresh d.name d.message)
  | other => .error (.invalidParams ("unknown step type: " ++ other))

/-- `args.min_providers.unwrap_or(3)` of `ConsensusTool::execute`: the
standalone `agent_consensus` tool defaults its minimum to 3. -/
def consensusToolMin (minProviders : Option Nat) : Nat :=
  minProviders.getD 3

/-- The §8 stats invariant, read through `stats(p)`. -/
def statsInvariant (r : RouterState) : Prop :=
  ∀ p, (r.statsOf p).total_requests =
    (r.statsOf p).successful_requests + (r.statsOf p).failed_requests

/-- Discriminator for the step kinds whose dispatch calls out to providers
(`Prompt`, `ParallelPrompt`, `Consensus`). -/
def StepConfig.isProviderCall : StepConfig → Bool
  | .prompt _ _ _ => true
  | .parallelPrompt _ _ => true
  | .consensus _ _ => true
  | _ => false

/-! ### Concrete fixtures used by closed examples and witnesses -/

/-- An adapter whose every prompt fails. -/
def envPromptFails : Adapter :=
  { acquireOk := true, authOk := fun _ => true
    promptResult := fun _ _ => .error "boom", elapsedMs := 5 }

/-- An adapter whose every prompt succeeds, echoing a fixed text. -/
def envAllOk : Adapter :=
  { acquireOk := true, authOk := fun _ => true
    promptResult := fun p _ => .ok { provider := p, text := "ok" }
    elapsedMs := 5 }

/-- An adapter where exactly Gemini fails and every other provider
succeeds. -/
def envGeminiFails : Adapter :=
  { acquireOk := true, authOk := fun _ => true
    promptResult := fun p _ =>
      if p = .gemini then .error "gemini down"
      else .ok { provider := p, text := "ok" }
    elapsedMs := 5 }

/-- Preferences in which every provider is listed as disabled. -/
def allDisabledPrefs : ProviderPreferences :=
  { ProviderPreferences.default with
    disabled :=
      ["claude", "grok", "gemini", "chatgpt", "perplexity", "notebooklm"] }

/-- A router state in which every provider has three fresh consecutive
failures (hence every provider is unhealthy at instant 0). -/
def allUnhealthyRouter : RouterState :=
  { preferences := ProviderPreferences.default
    health := fun _ => some { last_failure := some 0, consecutive_failures := 3 }
    stats := fun _ => none }

/-- A one-step workflow whose single step is a plain prompt. -/
def wfOnePrompt : Workflow :=
  (Workflow.new "wf-1" 0 "single prompt").addStep
    (WorkflowStep.prompt "s-1" "step 1" "hi") 0

/-- A one-step workflow whose single step is a human review. -/
def wfOneReview : Workflow :=
  (Workflow.new "wf-2" 0 "single review").addStep
    (WorkflowStep.review "s-2" "review 1" "please check") 0

/-- A one-step workflow whose single step is a consensus step built by the
`WorkflowStep::consensus` constructor. -/
def wfOneConsensus : Workflow :=
  (Workflow.new "wf-3" 0 "single consensus").addStep
    (WorkflowStep.consensus "s-3" "step c" "q") 0

/-- Two responses of equal text length (a consensus tie). -/
def tieResponses : List (Provider × PromptResponse) :=
  [(Provider.claude, { provider := Provider.claude, text := "ab" }),
   (Provider.gemini, { provider := Provider.gemini, text := "cd" })]

/-! ### Helper lemmas about the selection fold -/

theorem foldl_selStep_mem (caps : ProviderCaps) (r : RouterState)
    (t : TaskType) :
    ∀ (l : List Provider) (acc : Option (Provider × ℤ)) (w : Provider)
      (sw : ℤ), l.foldl (selStep caps r t) acc = some (w, sw) →
      acc = some (w, sw) ∨ w ∈ l := by
  intro l
  induction l with
  | nil =>
    intro acc w sw h
    exact Or.inl h
  | cons p ls ih =>
    intro acc w sw h
    rw [List.foldl_cons] at h
    rcases ih _ _ _ h with h1 | h2
    · unfold selStep at h1
      match acc, h1 with
      | none, h1 =>
        simp only [Option.some.injEq, Prod.mk.injEq] at h1
        exact Or.inr (by simp [h1.1])
      | some (q, s), h1 =>
        simp only at h1
        by_cases hgt : r.scoreProvider caps p t > s
        · rw [if_pos hgt] at h1
          simp only [Option.some.injEq, Prod.mk.injEq] at h1
          exact Or.inr (by simp [h1.1])
        · rw [if_neg hgt] at h1
          exact Or.inl h1
    · exact Or.inr (List.mem_cons_of_mem _ h2)

theorem foldl_selStep_isSome (caps : ProviderCaps) (r : RouterState)
    (t : TaskType) :
    ∀ (l : List Provider) (acc : Option (Provider × ℤ)), acc.isSome →
      (l.foldl (selStep caps r t) acc).isSome := by
  intro l
  induction l with
  | nil => intro acc h; exact h
  | cons p ls ih =>
    intro acc h
    rw [List.foldl_cons]
    apply ih
    unfold selStep
    match acc with
    | none => rfl
    | some (q, s) =>
      by_cases hgt : r.scoreProvider caps p t > s
      · simp [hgt]
      · simp [hgt]

theorem selBestFold_isSome (caps : ProviderCaps) (r : RouterState)
    (t : TaskType) (l : List Provider) (hne : l ≠ []) :
    (selBestFold caps r t l).isSome := by
  match l, hne with
  | p :: ls, _ =>
    unfold selBestFold
    rw [List.foldl_cons]
    exact foldl_selStep_isSome caps r t ls _ rfl

/-! ### Helper lemmas about `max_by_key` -/

theorem foldl_maxStep_spec (key : α → Nat) :
    ∀ (l : List α) (m : α),
      ∃ w, l.foldl (maxStep key) (some m) = some w ∧ key m ≤ key w ∧
        (∀ x ∈ l, key x ≤ key w) ∧
        ((w = m ∧ ∀ x ∈ l, key x < key w) ∨
         ∃ l1 l2, l = l1 ++ w :: l2 ∧ ∀ x ∈ l2, key x < key w) := by
  intro l
  induction l with
  | nil =>
    intro m
    exact ⟨m, rfl, le_refl _, by simp, Or.inl ⟨rfl, by simp⟩⟩
  | cons x xs ih =>
    intro m
    rw [List.foldl_cons]
    by_cases hc : key m ≤ key x
    · have hstep : maxStep key (some m) x = some x := by
        unfold maxStep; simp [hc]
      rw [hstep]
      obtain ⟨w, hw, hxw, hall, hdisj⟩ := ih x
      refine ⟨w, hw, le_trans hc hxw, ?_, ?_⟩
      · intro y hy
        rcases List.mem_cons.mp hy with hy | hy
        · rw [hy]; exact hxw
        · exact hall y hy
      · rcases hdisj with ⟨weq, hlt⟩ | ⟨l1, l2, heq, hlt⟩
        · exact Or.inr ⟨[], xs, by rw [weq]; rfl, hlt⟩
        · exact Or.inr ⟨x :: l1, l2, by rw [heq]; rfl, hlt⟩
    · have hstep : maxStep key (some m) x = some m := by
        unfold maxStep; simp [hc]
      rw [hstep]
      obtain ⟨w, hw, hmw, hall, hdisj⟩ := ih m
      have hxm : key x < key m := Nat.lt_of_not_le hc
      refine ⟨w, hw, hmw, ?_, ?_⟩
      · intro y hy
        rcases List.mem_cons.mp hy with hy | hy
        · rw [hy]; exact le_of_lt (lt_of_lt_of_le hxm hmw)
        · exact hall y hy
      · rcases hdisj with ⟨weq, hlt⟩ | ⟨l1, l2, heq, hlt⟩
        · refine Or.inl ⟨weq, ?_⟩
          intro y hy
          rcases List.mem_cons.mp hy with hy | hy
          · rw [hy, weq]; exact hxm
          · exact hlt y hy
        · exact Or.inr ⟨x :: l1, l2, by rw [heq]; rfl, hlt⟩

theorem maxByKeyLast_spec (key : α → Nat) (l : List α) (hne : l ≠ []) :
    ∃ w l1 l2, maxByKeyLast key l = some w ∧ l = l1 ++ w :: l2 ∧
      (∀ x ∈ l, key x ≤ key w) ∧ ∀ x ∈ l2, key x < key w := by
  match l, hne with
  | x :: xs, _ =>
    unfold maxByKeyLast
    rw [List.foldl_cons]
    have hstep : maxStep key none x = some x := rfl
    rw [hstep]
    obtain ⟨w, hw, hxw, hall, hdisj⟩ := foldl_maxStep_spec key xs x
    have hmemle : ∀ y ∈ x :: xs, key y ≤ key w := by
      intro y hy
      rcases List.mem_cons.mp hy with hy | hy
      · rw [hy]; exact hxw
      · exact hall y hy
    rcases hdisj with ⟨weq, hlt⟩ | ⟨l1, l2, heq, hlt⟩
    · exact ⟨w, [], xs, hw, by rw [weq]; rfl, hmemle, hlt⟩
    · exact ⟨w, x :: l1, l2, hw, by rw [heq]; rfl, hmemle, hlt⟩

/-! ### Helper lemmas about the stable sort and provider distinctness -/

theorem insertDescBy_perm (score : α → ℤ) (x : α) (l : List α) :
    (insertDescBy score x l).Perm (x :: l) := by
  induction l with
  | nil => exact List.Perm.refl _
  | cons y ys ih =>
    unfold insertDescBy
    by_cases hc : score y ≥ score x
    · rw [if_pos hc]
      exact ((ih.cons y).trans (List.Perm.swap x y ys))
    · rw [if_neg hc]

theorem sortDescBy_perm (score : α → ℤ) (l : List α) :
    (sortDescBy score l).Perm l := by
  induction l with
  | nil => exact List.Perm.refl _
  | cons x xs ih =>
    unfold sortDescBy
    exact (insertDescBy_perm score x (sortDescBy score xs)).trans (ih.cons x)

theorem providerAll_nodup : Provider.all.Nodup := by decide

theorem availableProviders_nodup (r : RouterState) (now : Nat) :
    (r.availableProviders now).Nodup :=
  List.Nodup.filter _ providerAll_nodup

theorem selectMultiple_ok_nodup (caps : ProviderCaps) (r : RouterState)
    (now count : Nat) (t : TaskType) (ps : List Provider)
    (h : r.selectMultiple caps now count t = .ok ps) : ps.Nodup := by
  unfold RouterState.selectMultiple at h
  by_cases hlen : (r.availableProviders now).length < count
  · simp [hlen] at h
  · simp only [hlen, if_false] at h
    have hps : ps =
        ((sortDescBy (fun pq => pq.2)
          ((r.availableProviders now).map
            (fun p => (p, r.scoreProvider caps p t)))).take count).map
          (fun pq => pq.1) := by
      exact (Except.ok.inj h).symm
    have hperm : ((sortDescBy (fun pq => pq.2)
        ((r.availableProviders now).map
          (fun p => (p, r.scoreProvider caps p t)))).map
          (fun pq : Provider × ℤ => pq.1)).Perm
        (((r.availableProviders now).map
          (fun p => (p, r.scoreProvider caps p t))).map
          (fun pq : Provider × ℤ => pq.1)) :=
      (sortDescBy_perm _ _).map _
    have hid : (((r.availableProviders now).map
        (fun p => (p, r.scoreProvider caps p t))).map
        (fun pq : Provider × ℤ => pq.1)) = r.availableProviders now := by
      rw [List.map_map]
      exact (List.map_congr_left (fun p _ => rfl)).trans
        (List.map_id (r.availableProviders now))
    have hsortednodup : ((sortDescBy (fun pq => pq.2)
        ((r.availableProviders now).map
          (fun p => (p, r.scoreProvider caps p t)))).map
          (fun pq : Provider × ℤ => pq.1)).Nodup := by
      refine hperm.nodup_iff.mpr ?_
      rw [hid]
      exact availableProviders_nodup r now
    have hsub : (((sortDescBy (fun pq => pq.2)
        ((r.availableProviders now).map
          (fun p => (p, r.scoreProvider caps p t)))).take count).map
          (fun pq : Provider × ℤ => pq.1)).Sublist
        ((sortDescBy (fun pq => pq.2)
          ((r.availableProviders now).map
            (fun p => (p, r.scoreProvider caps p t)))).map
          (fun pq : Provider × ℤ => pq.1)) :=
      (List.take_sublist _ _).map _
    rw [hps]
    exact hsub.nodup hsortednodup

theorem parallelPrompt_ok_map_fst (env : Adapter) (message : String)
    (ps : List Provider) (l : List (Provider × Except Error PromptResponse))
    (h : parallelPrompt env message ps = .ok l) : l.map Prod.fst = ps := by
  unfold parallelPrompt at h
  by_cases hacq : env.acquireOk = false
  · simp [hacq] at h
  · simp only [hacq, if_false] at h
    have hl := (Except.ok.inj h).symm
    rw [hl, List.map_map]
    have : ∀ p : Provider, (Prod.fst ∘ fun p =>
        if env.authOk p = false then
          (p, Except.error (Error.provider "authentication failed"))
        else
          match env.promptResult p message with
          | .ok resp => (p, Except.ok resp)
          | .error e => (p, Except.error (Error.provider e))) p = p := by
      intro p
      by_cases hauth : env.authOk p = false
      · simp [hauth]
      · simp only [Function.comp_apply, hauth, if_false]
        match env.promptResult p message with
        | .ok resp => rfl
        | .error e => rfl
    exact (List.map_congr_left (fun p _ => this p)).trans (List.map_id ps)

theorem successResponses_map_fst_sublist
    (results : List (Provider × Except Error PromptResponse)) :
    ((successResponses results).map Prod.fst).Sublist
      (results.map Prod.fst) := by
  induction results with
  | nil => exact List.Sublist.refl _
  | cons pr rest ih =>
    unfold successResponses at ih ⊢
    rw [List.filterMap_cons]
    match hpr : pr.2 with
    | .ok resp =>
      simp only
      rw [List.map_cons, List.map_cons]
      exact ih.cons₂ pr.1
    | .error e =>
      simp only
      rw [List.map_cons]
      exact ih.cons pr.1

/-! ### Helper lemmas about `find_consensus` -/

theorem findConsensus_responses_eq (responses : List (Provider × PromptResponse))
    (w : Provider × PromptResponse)
    (hwin : consensusWinner responses = some w) :
    (findConsensus responses).responses = responses.map (fun pr =>
      { provider := pr.1.displayName
        text := pr.2.text
        selected := decide (w.1 = pr.1)
        confidence := none : ProviderResponse }) := by
  unfold findConsensus
  simp only [hwin]

theorem findConsensus_selected_count (responses : List (Provider × PromptResponse))
    (hne : responses ≠ []) (hnd : (responses.map Prod.fst).Nodup) :
    ((findConsensus responses).responses.countP
      (fun resp => resp.selected)) = 1 := by
  obtain ⟨w, l1, l2, hwin, hdecomp, -, -⟩ :=
    maxByKeyLast_spec (fun pr => pr.2.text.utf8ByteSize) responses hne
  have hwinC : consensusWinner responses = some w := hwin
  have hwmem : w ∈ responses := by
    rw [hdecomp]
    exact List.mem_append.mpr (Or.inr (List.mem_cons_self _ _))
  rw [findConsensus_responses_eq responses w hwinC, List.countP_map]
  have hcomp : List.countP
      ((fun resp : ProviderResponse => resp.selected) ∘ (fun pr =>
        { provider := pr.1.displayName
          text := pr.2.text
          selected := decide (w.1 = pr.1)
          confidence := none : ProviderResponse })) responses =
      List.countP (fun pr : Provider × PromptResponse =>
        decide (w.1 = pr.1)) responses := rfl
  rw [hcomp]
  have hmapped : List.countP (fun pr : Provider × PromptResponse =>
      decide (w.1 = pr.1)) responses =
      List.countP (fun q : Provider => decide (w.1 = q))
        (responses.map Prod.fst) := by
    rw [List.countP_map]
    rfl
  rw [hmapped]
  have hflip : List.countP (fun q : Provider => decide (w.1 = q))
      (responses.map Prod.fst) =
      List.countP (fun q : Provider => q == w.1) (responses.map Prod.fst) := by
    apply List.countP_congr
    intro q _
    constructor
    · intro hq
      have := of_decide_eq_true hq
      exact beq_iff_eq.mpr this.symm
    · intro hq
      exact decide_eq_true (beq_iff_eq.mp hq).symm
  rw [hflip]
  exact List.count_eq_one_of_mem hnd (List.mem_map_of_mem Prod.fst hwmem)

/-! ### Helper lemmas about the stats invariant -/

theorem statsInvariant_withPreferences (prefs : ProviderPreferences) :
    statsInvariant (RouterState.withPreferences prefs) := by
  intro p
  rfl

theorem statsInvariant_recordSuccess (r : RouterState) (p : Provider)
    (latencyMs now : Nat) (h : statsInvariant r) :
    statsInvariant (r.recordSuccess p latencyMs now) := by
  intro q
  have hp := h p
  unfold RouterState.statsOf at hp
  unfold RouterState.statsOf RouterState.recordSuccess
  by_cases hq : q = p
  · subst hq
    dsimp only
    split
    · simp only [Option.getD_some]
      omega
    · next hf => exact absurd rfl hf
  · simp only [if_neg hq]
    exact h q

theorem statsInvariant_recordFailure (r : RouterState) (p : Provider)
    (now : Nat) (h : statsInvariant r) :
    statsInvariant (r.recordFailure p now) := by
  intro q
  have hp := h p
  unfold RouterState.statsOf at hp
  unfold RouterState.statsOf RouterState.recordFailure
  by_cases hq : q = p
  · subst hq
    dsimp only
    split
    · simp only [Option.getD_some]
      omega
    · next hf => exact absurd rfl hf
  · simp only [if_neg hq]
    exact h q

theorem statsInvariant_applyEvents (es : List RouterEvent) :
    ∀ r : RouterState, statsInvariant r →
      statsInvariant (r.applyEvents es) := by
  induction es with
  | nil => intro r h; exact h
  | cons e rest ih =>
    intro r h
    match e with
    | .success p latency now =>
      exact ih _ (statsInvariant_recordSuccess r p latency now h)
    | .failure p now =>
      exact ih _ (statsInvariant_recordFailure r p now h)

/-! ### Helper lemmas about `execute_workflow_step` -/

theorem executeWorkflowStep_eq_run (caps : ProviderCaps) (env : Adapter)
    (now : Nat) (r : RouterState) (wf : Workflow) (step : WorkflowStep)
    (h1 : wf.isComplete = false)
    (h2 : wf.steps.get? wf.current_step = some step) :
    executeWorkflowStep caps env now r wf =
      runStepConfig caps env now r (runningWorkflow wf step)
        wf.current_step step := by
  have h2b : wf.steps[wf.current_step]? = some step := by
    rw [← List.get?_eq_getElem?]
    exact h2
  unfold executeWorkflowStep
  simp [h1, h2b]

theorem runningWorkflow_current_step (wf : Workflow) (step : WorkflowStep) :
    (runningWorkflow wf step).current_step = wf.current_step := rfl

theorem runningWorkflow_state (wf : Workflow) (step : WorkflowStep) :
    (runningWorkflow wf step).state = .running := rfl

theorem runningWorkflow_length (wf : Workflow) (step : WorkflowStep) :
    (runningWorkflow wf step).steps.length = wf.steps.length := by
  unfold runningWorkflow
  dsimp only
  exact List.length_set wf.steps wf.current_step _

theorem runningWorkflow_stepState (wf : Workflow) (step : WorkflowStep)
    (h2 : wf.steps.get? wf.current_step = some step) :
    (runningWorkflow wf step).stepStateAt wf.current_step =
      some .running := by
  unfold Workflow.stepStateAt runningWorkflow
  dsimp only
  rw [List.get?_set_eq, h2]
  rfl

theorem advance_ok (wf : Workflow) (now : Nat)
    (h : wf.current_step < wf.steps.length) :
    ∃ wf2, wf.advance now = .ok wf2 := by
  unfold Workflow.advance
  rw [if_neg (Nat.not_le.mpr h)]
  dsimp only
  split
  · exact ⟨_, rfl⟩
  · exact ⟨_, rfl⟩

theorem finishStep_third_ok (r : RouterState) (wf1 : Workflow) (idx : Nat)
    (step : WorkflowStep) (result : StepResult) (now : Nat)
    (hcur : wf1.current_step = idx) (hlen : idx < wf1.steps.length) :
    (finishStep r wf1 idx step result now).2.2 = .ok result := by
  unfold finishStep
  obtain ⟨wf2, hadv⟩ := advance_ok { wf1 with steps := wf1.steps.set idx { step with state := .completed, result := some result } } now (by dsimp only; rw [List.length_set, hcur]; exact hlen)
  simp only [hadv]

theorem finishStep_third_ne_error (r : RouterState) (wf1 : Workflow)
    (idx : Nat) (step : WorkflowStep) (result : StepResult) (now : Nat)
    (e : Error) (hcur : wf1.current_step = idx)
    (hlen : idx < wf1.steps.length) :
    ¬ (finishStep r wf1 idx step result now).2.2 = Except.error e := by
  intro h
  rw [finishStep_third_ok r wf1 idx step result now hcur hlen] at h
  exact Except.noConfusion h

/-! ### Claim theorems -/

/-- Claim C7: for every provider `p`, after every finite sequence of
`record_success` / `record_failure` calls on a freshly built router, the
stats satisfy `total_requests = successful_requests + failed_requests`. -/
theorem claimC7_stats_total_split (prefs : ProviderPreferences)
    (es : List RouterEvent) (p : Provider) :
    (((RouterState.withPreferences prefs).applyEvents es).statsOf p).total_requests =
      (((RouterState.withPreferences prefs).applyEvents es).statsOf p).successful_requests +
      (((RouterState.withPreferences prefs).applyEvents es).statsOf p).failed_requests :=
  statsInvariant_applyEvents es _ (statsInvariant_withPreferences prefs) p

/-- Claim C8: the health predicate marks a record unhealthy exactly when
it has at least 3 consecutive failures and its last failure is within
300 seconds of `now`; a provider with no health record is healthy. -/
theorem claimC8_health_predicate :
    (∀ (h : ProviderHealth) (now : Nat),
      h.isHealthy now = false ↔
        (3 ≤ h.consecutive_failures ∧
         ∃ lf, h.last_failure = some lf ∧ now - lf < 300000))
    ∧ (∀ (r : RouterState) (p : Provider) (now : Nat),
        r.health p = none → r.isHealthy p now = true) := by
  refine ⟨?_, ?_⟩
  · intro h now
    unfold ProviderHealth.isHealthy
    by_cases hc : h.consecutive_failures ≥ 3
    · rw [if_pos hc]
      cases hlf : h.last_failure with
      | some lf =>
        dsimp only
        by_cases ht : now - lf < 300000
        · rw [if_pos ht]
          exact iff_of_true rfl ⟨hc, lf, rfl, ht⟩
        · rw [if_neg ht]
          apply iff_of_false
          · simp
          · rintro ⟨-, lf2, hlf2, ht2⟩
            injection hlf2 with he
            rw [← he] at ht2
            exact ht ht2
      | none =>
        dsimp only
        apply iff_of_false
        · simp
        · rintro ⟨-, lf2, hlf2, -⟩
          exact Option.noConfusion hlf2
    · rw [if_neg hc]
      apply iff_of_false
      · simp
      · rintro ⟨h3, -⟩
        exact hc h3
  · intro r p now hnone
    unfold RouterState.isHealthy
    rw [hnone]

/-- Witness for C8: a record with 3 fresh consecutive failures is
unhealthy, and a provider without a health record is healthy. -/
theorem claimC8_health_predicate_witness :
    ProviderHealth.isHealthy
      { last_failure := some 0, consecutive_failures := 3 } 100 = false
    ∧ RouterState.isHealthy
      { preferences := ProviderPreferences.default
        health := fun _ => none
        stats := fun _ => none } Provider.claude 5 = true := by
  constructor
  · exact (claimC8_health_predicate.1
      { last_failure := some 0, consecutive_failures := 3 } 100).mpr
      ⟨by decide, 0, rfl, by decide⟩
  · exact claimC8_health_predicate.2 _ Provider.claude 5 rfl

/-- Counterexample to claim C1 as stated: with every provider listed as
disabled in preferences and an empty health map, `available_providers`
still returns every provider and `select_best` still returns a provider
instead of `NoProviders` — `preferences.disabled` is never consulted. -/
theorem claimC1_counterexample :
    (Provider.all.all (fun p => allDisabledPrefs.isDisabled p)) = true
    ∧ (RouterState.withPreferences allDisabledPrefs).availableProviders 0 =
        Provider.all
    ∧ (RouterState.withPreferences allDisabledPrefs).selectBest
        defaultCaps 0 .general = .ok Provider.claude := by
  refine ⟨by decide, by decide, by decide⟩

/-- Claim C1 (amended): `select_best` considers exactly the providers that
pass the health predicate; `preferences.disabled` is not consulted, so
`available_providers` is the healthy subset of all providers with disabled
providers NOT removed, and `select_best` returns `NoProviders` precisely
when no provider is healthy (disabling every provider in preferences does
not starve selection). -/
theorem claimC1_select_best_health_filter (caps : ProviderCaps)
    (r : RouterState) (now : Nat) (t : TaskType) :
    r.availableProviders now =
      Provider.all.filter (fun p => r.isHealthy p now)
    ∧ ((r.availableProviders now).isEmpty = true →
        r.selectBest caps now t =
          .error (.noProviders "no healthy providers available"))
    ∧ (∀ p, r.selectBest caps now t = .ok p →
        p ∈ r.availableProviders now ∧ r.isHealthy p now = true)
    ∧ ((r.availableProviders now).isEmpty = false →
        ∃ p, r.selectBest caps now t = .ok p) := by
  refine ⟨rfl, ?_, ?_, ?_⟩
  · intro hemp
    simp [RouterState.selectBest, hemp]
  · intro p hok
    simp only [RouterState.selectBest] at hok
    by_cases hemp : (r.availableProviders now).isEmpty
    · simp [hemp] at hok
    · simp only [hemp, Bool.false_eq_true, if_false] at hok
      cases hfold : selBestFold caps r t (r.availableProviders now) with
      | none => rw [hfold] at hok; exact absurd hok (by simp)
      | some pair =>
        obtain ⟨q, s⟩ := pair
        rw [hfold] at hok
        have hqp : q = p := by
          simpa using hok
        subst hqp
        unfold selBestFold at hfold
        rcases foldl_selStep_mem caps r t _ none q s hfold with hacc | hmem
        · exact Option.noConfusion hacc
        · refine ⟨hmem, ?_⟩
          have := List.mem_filter.mp (by
            have h2 : q ∈ Provider.all.filter (fun p => r.isHealthy p now) :=
              hmem
            exact h2)
          exact this.2
  · intro hemp
    have hne : r.availableProviders now ≠ [] := by
      intro hnil
      rw [hnil] at hemp
      simp at hemp
    have hsome := selBestFold_isSome caps r t _ hne
    obtain ⟨pair, hfold⟩ := Option.isSome_iff_exists.mp hsome
    obtain ⟨p, s⟩ := pair
    refine ⟨p, ?_⟩
    simp [RouterState.selectBest, hemp, hfold]

/-- Witness for the amended C1: a router whose every provider has three
fresh consecutive failures selects nothing, and on a fresh router the
returned provider is a member of the healthy set. -/
theorem claimC1_select_best_health_filter_witness :
    allUnhealthyRouter.selectBest defaultCaps 0 .general =
      .error (.noProviders "no healthy providers available")
    ∧ Provider.claude ∈ RouterState.new.availableProviders 0 := by
  constructor
  · exact (claimC1_select_best_health_filter defaultCaps
      allUnhealthyRouter 0 .general).2.1 (by decide)
  · exact ((claimC1_select_best_health_filter defaultCaps
      RouterState.new 0 .general).2.2.1 Provider.claude (by decide)).1

/-- Counterexample to claim C5 as stated: on two successful responses of
equal text length, `find_consensus` (via `max_by_key`) selects the LAST
tied response, not the first — Gemini's `"cd"` wins over Claude's
`"ab"`. -/
theorem claimC5_counterexample :
    (findConsensus tieResponses).responses.map
      (fun resp => (resp.provider, resp.selected)) =
      [("Claude", false), ("Gemini", true)]
    ∧ (findConsensus tieResponses).consensus_text = "cd" := by
  refine ⟨by decide, by decide⟩

/-- Claim C5 (amended): the consensus winner is a successful response of
maximal text length, and when several responses tie on length the winner
is the LAST of them in result order (every response after the winner is
strictly shorter). -/
theorem claimC5_winner_longest_last_tie
    (responses : List (Provider × PromptResponse)) (hne : responses ≠ []) :
    ∃ w l1 l2, consensusWinner responses = some w ∧
      responses = l1 ++ w :: l2 ∧
      (∀ pr ∈ responses,
        pr.2.text.utf8ByteSize ≤ w.2.text.utf8ByteSize) ∧
      (∀ pr ∈ l2, pr.2.text.utf8ByteSize < w.2.text.utf8ByteSize) ∧
      (findConsensus responses).consensus_text = w.2.text := by
  obtain ⟨w, l1, l2, hwin, hdec, hall, hlt⟩ :=
    maxByKeyLast_spec (fun pr => pr.2.text.utf8ByteSize) responses hne
  have hwinC : consensusWinner responses = some w := hwin
  refine ⟨w, l1, l2, hwinC, hdec, hall, hlt, ?_⟩
  unfold findConsensus
  simp only [hwinC]

/-- Witness for the amended C5 at the concrete tie. -/
theorem claimC5_winner_longest_last_tie_witness :
    (findConsensus tieResponses).consensus_text = "cd" := by
  obtain ⟨w, l1, l2, hwin, -, -, -, htext⟩ :=
    claimC5_winner_longest_last_tie tieResponses (by decide)
  have h2 : consensusWinner tieResponses =
      some (Provider.gemini, { provider := Provider.gemini, text := "cd" }) := by
    decide
  rw [h2] at hwin
  have hw := Option.some.inj hwin
  rw [htext, ← hw]

/-- Counterexample to claim C3 as stated: after `parallel_prompt` over
`[Claude]` with a successful prompt, the router still shows zero recorded
requests for Claude — `parallel_prompt` performs no router update at
all. -/
theorem claimC3_counterexample :
    ((orchParallelPrompt envAllOk RouterState.new "hi"
        [Provider.claude]).1.statsOf Provider.claude).successful_requests = 0
    ∧ ((orchParallelPrompt envAllOk RouterState.new "hi"
        [Provider.claude]).1.statsOf Provider.claude).total_requests = 0
    ∧ ((orchParallelPrompt envAllOk RouterState.new "hi"
        [Provider.claude]).2.toOption.map
          (fun l => l.map (fun pr => (pr.1, pr.2.isOk)))) =
        some [(Provider.claude, true)] := by
  refine ⟨by decide, by decide, by decide⟩

/-- Claim C3 (amended): `parallel_prompt` leaves the router's health and
stats untouched for every provider; per-provider recording happens only in
`prompt_provider`, which records a success on prompt success and a failure
on prompt failure (and records nothing when authentication fails, since
that error propagates before recording). -/
theorem claimC3_parallel_prompt_no_recording :
    (∀ (env : Adapter) (r : RouterState) (message : String)
       (ps : List Provider), (orchParallelPrompt env r message ps).1 = r)
    ∧ (∀ (env : Adapter) (message : String) (ps : List Provider) l,
        parallelPrompt env message ps = .ok l → l.map Prod.fst = ps)
    ∧ (∀ (env : Adapter) (r : RouterState) (now : Nat) (p : Provider)
         (message : String) (resp : PromptResponse),
        env.acquireOk = true → env.authOk p = true →
        env.promptResult p message = .ok resp →
        ((promptProvider env r now p message).1.statsOf p).successful_requests
            = (r.statsOf p).successful_requests + 1
        ∧ ((promptProvider env r now p message).1.statsOf p).total_requests
            = (r.statsOf p).total_requests + 1)
    ∧ (∀ (env : Adapter) (r : RouterState) (now : Nat) (p : Provider)
         (message : String) (e : String),
        env.acquireOk = true → env.authOk p = true →
        env.promptResult p message = .error e →
        ((promptProvider env r now p message).1.statsOf p).failed_requests
            = (r.statsOf p).failed_requests + 1
        ∧ ((promptProvider env r now p message).1.statsOf p).total_requests
            = (r.statsOf p).total_requests + 1)
    ∧ (∀ (env : Adapter) (r : RouterState) (now : Nat) (p : Provider)
         (message : String),
        env.authOk p = false →
        (promptProvider env r now p message).1 = r) := by
  refine ⟨fun _ _ _ _ => rfl, parallelPrompt_ok_map_fst, ?_, ?_, ?_⟩
  · intro env r now p message resp hacq hauth hres
    unfold promptProvider
    rw [hacq, hauth]
    simp only [Bool.true_eq_false, if_false, hres]
    unfold RouterState.statsOf RouterState.recordSuccess
    dsimp only
    rw [if_pos rfl]
    exact ⟨rfl, rfl⟩
  · intro env r now p message e hacq hauth hres
    unfold promptProvider
    rw [hacq, hauth]
    simp only [Bool.true_eq_false, if_false, hres]
    unfold RouterState.statsOf RouterState.recordFailure
    dsimp only
    rw [if_pos rfl]
    exact ⟨rfl, rfl⟩
  · intro env r now p message hauth
    unfold promptProvider
    rw [hauth]
    by_cases hacq : env.acquireOk = false
    · rw [if_pos hacq]
    · rw [if_neg hacq, if_pos rfl]

/-- Witness for the amended C3: concrete single-provider batch leaves the
fresh router unchanged, and a direct `prompt_provider` success records one
successful request. -/
theorem claimC3_parallel_prompt_no_recording_witness :
    (orchParallelPrompt envAllOk RouterState.new "hi" [Provider.claude]).1 =
      RouterState.new
    ∧ ((promptProvider envAllOk RouterState.new 0 Provider.claude
        "hi").1.statsOf Provider.claude).successful_requests = 1 := by
  constructor
  · exact claimC3_parallel_prompt_no_recording.1 envAllOk RouterState.new
      "hi" [Provider.claude]
  · have h := (claimC3_parallel_prompt_no_recording.2.2.1 envAllOk
      RouterState.new 0 Provider.claude "hi"
      { provider := Provider.claude, text := "ok" } rfl rfl rfl).1
    rw [h]
    decide

/-- Claim C4: executing a workflow whose current step is a `HumanReview`
step leaves `current_step` unchanged, sets that step's state to
`WaitingForHuman`, sets the workflow state to `Paused`, returns the
`Workflow("waiting for human review")` error, and changes nothing else:
the router, every other workflow field (including `updated_at`) and every
other field of the step are untouched. -/
theorem claimC4_human_review_pause (caps : ProviderCaps) (env : Adapter)
    (now : Nat) (r : RouterState) (wf : Workflow) (step : WorkflowStep)
    (reviewPrompt : String)
    (h1 : wf.isComplete = false)
    (h2 : wf.steps.get? wf.current_step = some step)
    (h3 : step.config = .humanReview reviewPrompt) :
    executeWorkflowStep caps env now r wf =
      (r,
       { wf with
         state := .paused
         steps := wf.steps.set wf.current_step
           { step with state := .waitingForHuman } },
       .error (.workflow "waiting for human review")) := by
  rw [executeWorkflowStep_eq_run caps env now r wf step h1 h2]
  unfold runStepConfig
  simp only [h3]
  unfold runningWorkflow
  dsimp only
  rw [List.set_set]

/-- Witness for C4 at a concrete one-step review workflow. -/
theorem claimC4_human_review_pause_witness :
    executeWorkflowStep defaultCaps envAllOk 0 RouterState.new wfOneReview =
      (RouterState.new,
       { wfOneReview with
         state := .paused
         steps := wfOneReview.steps.set 0
           { WorkflowStep.review "s-2" "review 1" "please check" with
             state := .waitingForHuman } },
       .error (.workflow "waiting for human review")) :=
  claimC4_human_review_pause defaultCaps envAllOk 0 RouterState.new
    wfOneReview (WorkflowStep.review "s-2" "review 1" "please check")
    "please check" (by decide) (by decide) rfl

/-- Counterexample to claim C2 as stated: when the provider call of a
prompt step fails, the error is propagated and the workflow does not
advance, but the step's state stays `Running` — it is never set to
`Failed(reason)` (`WorkflowStep::fail` is never called). -/
theorem claimC2_counterexample :
    ((executeWorkflowStep defaultCaps envPromptFails 0 RouterState.new
        wfOnePrompt).2.2).isOk = false
    ∧ (executeWorkflowStep defaultCaps envPromptFails 0 RouterState.new
        wfOnePrompt).2.1.current_step = 0
    ∧ (executeWorkflowStep defaultCaps envPromptFails 0 RouterState.new
        wfOnePrompt).2.1.stepStateAt 0 = some StepState.running
    ∧ ¬ ∃ reason,
        (executeWorkflowStep defaultCaps envPromptFails 0 RouterState.new
          wfOnePrompt).2.1.stepStateAt 0 = some (StepState.failed reason) := by
  refine ⟨by decide, by decide, by decide, ?_⟩
  rintro ⟨reason, hr⟩
  have hs : (executeWorkflowStep defaultCaps envPromptFails 0 RouterState.new
      wfOnePrompt).2.1.stepStateAt 0 = some StepState.running := by decide
  rw [hs] at hr
  injection hr with hr2
  exact StepState.noConfusion hr2

/-- Claim C2 (amended): for every step whose execution fails with a
provider or selection error, `execute_workflow_step` propagates the error
and `current_step` is not advanced, but the failed step's state remains
`Running` (it does not become `Failed(reason)`), and the workflow state
remains `Running`. -/
theorem claimC2_step_error_keeps_running (caps : ProviderCaps)
    (env : Adapter) (now : Nat) (r : RouterState) (wf : Workflow)
    (step : WorkflowStep) (e : Error)
    (h1 : wf.isComplete = false)
    (h2 : wf.steps.get? wf.current_step = some step)
    (h3 : step.config.isProviderCall = true)
    (h4 : (executeWorkflowStep caps env now r wf).2.2 = .error e) :
    (executeWorkflowStep caps env now r wf).2.1.current_step =
      wf.current_step
    ∧ (executeWorkflowStep caps env now r wf).2.1.stepStateAt
        wf.current_step = some .running
    ∧ (executeWorkflowStep caps env now r wf).2.1.state = .running := by
  obtain ⟨hlt, -⟩ := List.get?_eq_some.mp h2
  rw [executeWorkflowStep_eq_run caps env now r wf step h1 h2] at h4 ⊢
  have hlen : wf.current_step < (runningWorkflow wf step).steps.length := by
    rw [runningWorkflow_length]
    exact hlt
  have hconc :
      (runningWorkflow wf step).current_step = wf.current_step
      ∧ (runningWorkflow wf step).stepStateAt wf.current_step =
          some .running
      ∧ (runningWorkflow wf step).state = .running :=
    ⟨rfl, runningWorkflow_stepState wf step h2, rfl⟩
  cases hcfg : step.config with
  | prompt message provider ctx =>
    simp only [runStepConfig, hcfg] at h4 ⊢
    rcases houtcome : (match provider.bind parseProviderStep with
      | some p => promptProvider env r now p message
      | none => orchPrompt caps env r now message) with ⟨r1, res⟩
    rw [houtcome] at h4 ⊢
    cases res with
    | error e0 => exact hconc
    | ok resp =>
      have hthird := finishStep_third_ok r1 (runningWorkflow wf step)
        wf.current_step step
        { output := resp.text
          provider := some resp.provider.displayName
          responses := none
          duration_ms := env.elapsedMs
          metadata := [] } now rfl hlen
      dsimp only at h4
      rw [hthird] at h4
      exact absurd h4 (by simp)
  | parallelPrompt message providerStrs =>
    simp only [runStepConfig, hcfg] at h4 ⊢
    cases hpar : parallelPrompt env message
        (providerStrs.filterMap parseProviderStep) with
    | error e0 =>
      exact hconc
    | ok results =>
      rw [hpar] at h4
      exact absurd h4 (finishStep_third_ne_error r (runningWorkflow wf step)
        wf.current_step step _ now _ rfl hlen)
  | consensus message minProviders =>
    simp only [runStepConfig, hcfg] at h4 ⊢
    cases hcp : consensusPrompt caps env r now message minProviders with
    | error e0 =>
      exact hconc
    | ok consensus =>
      rw [hcp] at h4
      exact absurd h4 (finishStep_third_ne_error r (runningWorkflow wf step)
        wf.current_step step _ now _ rfl hlen)
  | humanReview reviewPrompt =>
    rw [hcfg] at h3
    exact absurd h3 (by simp [StepConfig.isProviderCall])
  | conditional c t e2 =>
    rw [hcfg] at h3
    exact absurd h3 (by simp [StepConfig.isProviderCall])
  | tool tn args =>
    rw [hcfg] at h3
    exact absurd h3 (by simp [StepConfig.isProviderCall])

/-- Witness for the amended C2 at a failing one-step prompt workflow. -/
theorem claimC2_step_error_keeps_running_witness :
    (executeWorkflowStep defaultCaps envPromptFails 0 RouterState.new
      wfOnePrompt).2.1.stepStateAt 0 = some StepState.running
    ∧ (executeWorkflowStep defaultCaps envPromptFails 0 RouterState.new
      wfOnePrompt).2.1.state = WorkflowState.running := by
  have h := claimC2_step_error_keeps_running defaultCaps envPromptFails 0
    RouterState.new wfOnePrompt (WorkflowStep.prompt "s-1" "step 1" "hi")
    (.provider "boom") (by decide) (by decide) (by decide) (by decide)
  exact ⟨h.2.1, h.2.2⟩

/-- Counterexample to claim C6 as stated: with `min_providers = 0` and
every queried provider failing, `consensus_prompt` returns `Ok` with an
empty response list — no `ProviderResponse` has `selected = true`, so the
"exactly one selected" clause fails. -/
theorem claimC6_counterexample :
    (consensusPrompt defaultCaps envPromptFails RouterState.new 0 "q"
      0).isOk = true
    ∧ ((consensusPrompt defaultCaps envPromptFails RouterState.new 0 "q"
        0).toOption.map
          (fun c => c.responses.countP (fun resp => resp.selected))) =
        some 0 := by
  refine ⟨by decide, by decide⟩

/-- Claim C6 (amended): `consensus_prompt(msg, k)` fails with
`NoProviders` when fewer than `k` of the queried providers succeed; and
for `k ≥ 1`, every `Ok` result has exactly one response with
`selected = true`. -/
theorem claimC6_consensus_selected_unique (caps : ProviderCaps)
    (env : Adapter) (r : RouterState) (now : Nat) (message : String)
    (k : Nat) :
    (∀ ps results,
      r.selectMultiple caps now (max k 3) .general = .ok ps →
      parallelPrompt env message ps = .ok results →
      (successResponses results).length < k →
      consensusPrompt caps env r now message k =
        .error (.noProviders
          ("only " ++ toString (successResponses results).length ++
           " providers responded, need " ++ toString k)))
    ∧ (∀ c, 1 ≤ k → consensusPrompt caps env r now message k = .ok c →
        c.responses.countP (fun resp => resp.selected) = 1) := by
  constructor
  · intro ps results hsel hpar hlen
    unfold consensusPrompt
    simp only [hsel, hpar]
    rw [if_pos hlen]
  · intro c hk hok
    unfold consensusPrompt at hok
    cases hsel : r.selectMultiple caps now (max k 3) .general with
    | error e =>
      rw [hsel] at hok
      exact absurd hok (by simp)
    | ok ps =>
      rw [hsel] at hok
      dsimp only at hok
      cases hpar : parallelPrompt env message ps with
      | error e =>
        rw [hpar] at hok
        exact absurd hok (by simp)
      | ok results =>
        rw [hpar] at hok
        dsimp only at hok
        by_cases hlen : (successResponses results).length < k
        · rw [if_pos hlen] at hok
          exact absurd hok (by simp)
        · rw [if_neg hlen] at hok
          have hc : c = findConsensus (successResponses results) :=
            (Except.ok.inj hok).symm
          subst hc
          apply findConsensus_selected_count
          · have hlen2 : k ≤ (successResponses results).length :=
              Nat.not_lt.mp hlen
            exact List.ne_nil_of_length_pos (lt_of_lt_of_le hk hlen2)
          · have hnodup := selectMultiple_ok_nodup caps r now (max k 3)
              .general ps hsel
            have hfst := parallelPrompt_ok_map_fst env message ps results
              hpar
            have hsub := successResponses_map_fst_sublist results
            rw [hfst] at hsub
            exact hsub.nodup hnodup

/-- Witness for the amended C6: a concrete run (three queried, Gemini
failing, `k = 2`) succeeds with exactly one selected response. -/
theorem claimC6_consensus_selected_unique_witness :
    ∃ c, consensusPrompt defaultCaps envGeminiFails RouterState.new 0 "q" 2 =
        .ok c
      ∧ c.responses.countP (fun resp => resp.selected) = 1 := by
  have hok : (consensusPrompt defaultCaps envGeminiFails RouterState.new 0
      "q" 2).isOk = true := by decide
  cases hres : consensusPrompt defaultCaps envGeminiFails RouterState.new 0
      "q" 2 with
  | error e =>
    rw [hres] at hok
    exact absurd hok (by simp [Except.isOk, Except.toBool])
  | ok c =>
    exact ⟨c, rfl,
      (claimC6_consensus_selected_unique defaultCaps envGeminiFails
        RouterState.new 0 "q" 2).2 c (by decide) hres⟩

/-- Claim C10: the `WorkflowStep::consensus` constructor (used by the
`agent_workflow_start` tool for `"consensus"` steps) fixes
`min_providers = 2`, so a consensus step inside a workflow succeeds with
only 2 successful provider responses, while the standalone
`agent_consensus` tool defaults its minimum to 3 and fails on the same
outcome. -/
theorem claimC10_workflow_consensus_min_two :
    (∀ fresh name message, (WorkflowStep.consensus fresh name message).config
        = .consensus message 2)
    ∧ (∀ (fresh : String) (d : WorkflowStepDef), d.stepType = "consensus" →
        buildStep fresh d = .ok (WorkflowStep.consensus fresh d.name d.message))
    ∧ consensusToolMin none = 3
    ∧ (consensusPrompt defaultCaps envGeminiFails RouterState.new 0 "q"
        2).isOk = true
    ∧ consensusPrompt defaultCaps envGeminiFails RouterState.new 0 "q" 3 =
        .error (.noProviders "only 2 providers responded, need 3")
    ∧ ((executeWorkflowStep defaultCaps envGeminiFails 0 RouterState.new
        wfOneConsensus).2.2).isOk = true := by
  refine ⟨fun _ _ _ => rfl, ?_, rfl, by decide, by decide, by decide⟩
  intro fresh d hd
  unfold buildStep
  rw [hd]
  rfl

/-- Witness for C10: the tool's `"consensus"` step definition builds the
constructor's step. -/
theorem claimC10_workflow_consensus_min_two_witness :
    buildStep "id-1"
      { name := "s", stepType := "consensus", message := "q"
        provider := none, providers := none } =
      .ok (WorkflowStep.consensus "id-1" "s" "q") :=
  claimC10_workflow_consensus_min_two.2.1 "id-1"
    { name := "s", stepType := "consensus", message := "q"
      provider := none, providers := none } rfl
